import Mathlib

/-
Shallow embedding of src/src/libcore/dvec.rs: the `DVec` growable vector
with a nullable-storage reentrancy sentinel.

The Rust struct is `pub struct DVec<A> { mut data: ~[A] }` where the
`~[A]` pointer may be null while the vector is checked out.  We model the
storage slot as `Option (List A)`: `some v` is the present owned vector,
`none` is the null sentinel ("checked out").

Every fallible operation is a state transformer returning
`Except DvecErr B × DVec A`: the `Except` carries the value or the fatal
error (`fail!` in the source aborts the task; we record which error fired
and the storage state at that instant, which is what the poisoning claims
are about).  User callbacks (`swap`, `borrow`, `rev_each`, ...) may
themselves fault, so they return `Except DvecErr _`.
-/

set_option autoImplicit false

deriving instance DecidableEq for Except

namespace Dvec

/-- Error taxonomy of the spec (section 7).  In the source all three are
`fail!` calls: "Recursive use of dvec" for reentrant access, the vec
library failures for popping or shifting an empty vector and for a
bounds-check violation, and the explicit empty-vector failure in `last`. -/
inductive DvecErr where
  | ReentrantAccess
  | EmptyContainer
  | IndexOutOfRange
deriving DecidableEq

/-- `DVec<A>`: `data = some v` is the present owned vector; `data = none`
is the null pointer installed while the vector is checked out. -/
structure DVec (A : Type) where
  data : Option (List A)
deriving DecidableEq

variable {A B : Type}

/-- Source line 63: creates a new, empty dvec. -/
def mkDVec : DVec A := ⟨some []⟩

/-- Source line 68: creates a new dvec with a single element. -/
def from_elem (e : A) : DVec A := ⟨some [e]⟩

/-- Source line 73: creates a new dvec adopting an existing vector. -/
def from_vec (v : List A) : DVec A := ⟨some v⟩

/-- Source line 78: `unwrap` destructures the struct and returns the raw
`~[A]` field with no sentinel test.  If the dvec is checked out the raw
field is the null pointer, which we model as `none`. -/
def unwrap (d : DVec A) : Option (List A) := d.data

/-- Source lines 85-92: `check_not_borrowed` fails with "Recursive use of
dvec" when the data pointer is null, and otherwise does nothing. -/
def check_not_borrowed (d : DVec A) : Except DvecErr Unit :=
  match d.data with
  | none => Except.error DvecErr.ReentrantAccess
  | some _ => Except.ok ()

/-- Source lines 95-99: `give_back` unconditionally installs `v` as the
new contents, clearing the sentinel. -/
def give_back (_d : DVec A) (v : List A) : DVec A := ⟨some v⟩

/-- Source lines 111-119: `check_out` swaps the data pointer with null and
fails with "Recursive use of dvec" if it was already null; otherwise the
caller receives the extracted vector together with the container as the
callback sees it (sentinel installed).  The callers below run the body of
the source closure on the extracted vector and call `give_back` exactly
where the source does. -/
def check_out (d : DVec A) : Except DvecErr (List A × DVec A) :=
  match d.data with
  | none => Except.error DvecErr.ReentrantAccess
  | some v => Except.ok (v, ⟨none⟩)

/-- Modelled from the spec: `vec::reserve` (libcore/vec.rs, not under
src/) only hints at capacity, with no effect on logical length or element
order.  Source lines 122-124: `DVec::reserve` calls it directly on the
storage slot with no sentinel test of its own. -/
def reserve (d : DVec A) (_count : Nat) : Except DvecErr Unit × DVec A :=
  (Except.ok (), d)

/-- Source lines 132-134: `swap` checks out, applies `f`, and gives the
result back.  If `f` faults the give-back never happens and the sentinel
stays installed. -/
def swap (d : DVec A) (f : List A → Except DvecErr (List A)) :
    Except DvecErr Unit × DVec A :=
  match check_out d with
  | Except.error e => (Except.error e, d)
  | Except.ok (v, d1) =>
    match f v with
    | Except.error e => (Except.error e, d1)
    | Except.ok w => (Except.ok (), give_back d1 w)

/-- Source lines 138-141: `len` checks the sentinel then reads the length. -/
def len (d : DVec A) : Except DvecErr Nat × DVec A :=
  match d.data with
  | none => (Except.error DvecErr.ReentrantAccess, d)
  | some v => (Except.ok v.length, d)

/-- Source lines 145-148: `set` checks the sentinel then overwrites the
contents with `w`. -/
def set (d : DVec A) (w : List A) : Except DvecErr Unit × DVec A :=
  match d.data with
  | none => (Except.error DvecErr.ReentrantAccess, d)
  | some _ => (Except.ok (), ⟨some w⟩)

/-- Modelled from the spec: `vec::pop` (libcore/vec.rs, not under src/)
removes and returns the last element and fails on a zero-length vector;
per spec section 7 that failure is `EmptyContainer`. -/
def vecPop (v : List A) : Except DvecErr (A × List A) :=
  match v.getLast? with
  | none => Except.error DvecErr.EmptyContainer
  | some x => Except.ok (x, v.dropLast)

/-- Modelled from the spec: `vec::shift` (libcore/vec.rs, not under src/)
removes and returns the first element, shifting the rest down one
position, and fails with `EmptyContainer` on a zero-length vector. -/
def vecShift : List A → Except DvecErr (A × List A)
  | [] => Except.error DvecErr.EmptyContainer
  | x :: xs => Except.ok (x, xs)

/-- Modelled from the spec: the bounds-checked indexed read `v[i]`
(libcore/vec.rs, not under src/) fails with `IndexOutOfRange` when the
index is not below the length. -/
def vecIndex (v : List A) (i : Nat) : Except DvecErr A :=
  match v[i]? with
  | none => Except.error DvecErr.IndexOutOfRange
  | some x => Except.ok x

/-- Modelled from the spec: the bounds-checked indexed write `v[i] = a`
(libcore/vec.rs, not under src/) fails with `IndexOutOfRange` when the
index is not below the length. -/
def vecSet (v : List A) (i : Nat) (a : A) : Except DvecErr (List A) :=
  if i < v.length then Except.ok (v.set i a) else Except.error DvecErr.IndexOutOfRange

/-- Modelled from the spec: `vec::grow_set` (libcore/vec.rs, not under
src/) grows the vector to length `i+1` when `i` is not below the length,
filling the new slots with copies of `initval`, then writes `a` at `i`. -/
def vecGrowSet (v : List A) (i : Nat) (initval a : A) : List A :=
  (if v.length ≤ i then v ++ List.replicate (i + 1 - v.length) initval else v).set i a

/-- Source lines 151-158: `pop` checks out, pops the last element of the
extracted vector (failing there leaves the sentinel installed), gives the
remainder back and returns the element. -/
def pop (d : DVec A) : Except DvecErr A × DVec A :=
  match check_out d with
  | Except.error e => (Except.error e, d)
  | Except.ok (v, d1) =>
    match vecPop v with
    | Except.error e => (Except.error e, d1)
    | Except.ok (x, v1) => (Except.ok x, give_back d1 v1)

/-- Source lines 161-170: `unshift` swaps the data pointer out by hand,
fails if it was null, then installs the one-element vector `[t]` and
appends the former contents after it. -/
def unshift (d : DVec A) (t : A) : Except DvecErr Unit × DVec A :=
  match d.data with
  | none => (Except.error DvecErr.ReentrantAccess, d)
  | some v => (Except.ok (), ⟨some (t :: v)⟩)

/-- Source lines 174-177: `push` checks the sentinel then appends `t` in
place. -/
def push (d : DVec A) (t : A) : Except DvecErr Unit × DVec A :=
  match d.data with
  | none => (Except.error DvecErr.ReentrantAccess, d)
  | some v => (Except.ok (), ⟨some (v ++ [t])⟩)

/-- Source lines 180-187: `shift` checks out, removes the first element
of the extracted vector (failing there leaves the sentinel installed),
gives the rest back and returns the element. -/
def shift (d : DVec A) : Except DvecErr A × DVec A :=
  match check_out d with
  | Except.error e => (Except.error e, d)
  | Except.ok (v, d1) =>
    match vecShift v with
    | Except.error e => (Except.error e, d1)
    | Except.ok (x, v1) => (Except.ok x, give_back d1 v1)

/-- Source lines 190-196: `reverse` checks out, reverses in place, gives
back. -/
def reverse (d : DVec A) : Except DvecErr Unit × DVec A :=
  match check_out d with
  | Except.error e => (Except.error e, d)
  | Except.ok (v, d1) => (Except.ok (), give_back d1 v.reverse)

/-- Source lines 199-205: `borrow` checks out, hands the vector to `op`
read-only, gives the unchanged vector back and returns the result of
`op`.  A faulting `op` leaves the sentinel installed. -/
def borrow (d : DVec A) (op : List A → Except DvecErr B) :
    Except DvecErr B × DVec A :=
  match check_out d with
  | Except.error e => (Except.error e, d)
  | Except.ok (v, d1) =>
    match op v with
    | Except.error e => (Except.error e, d1)
    | Except.ok r => (Except.ok r, give_back d1 v)

/-- Source lines 208-215: `borrow_mut` checks out, hands the vector to
`op` as a mutable slice (`op` may update elements in place, which we model
by returning the updated vector alongside its result), gives the vector
back and returns the result. -/
def borrow_mut (d : DVec A) (op : List A → Except DvecErr (List A × B)) :
    Except DvecErr B × DVec A :=
  match check_out d with
  | Except.error e => (Except.error e, d)
  | Except.ok (v, d1) =>
    match op v with
    | Except.error e => (Except.error e, d1)
    | Except.ok (v1, r) => (Except.ok r, give_back d1 v1)

/-- Source lines 229-241: the `while i < to_idx` loop of `push_slice`,
written with the remaining iteration count `to_idx - i` as an explicit
structural argument.  Each `ts[i]` read is bounds-checked. -/
def push_slice_loop (ts : List A) : Nat → Nat → List A → Except DvecErr (List A)
  | _, 0, v => Except.ok v
  | i, n + 1, v =>
    match vecIndex ts i with
    | Except.error e => Except.error e
    | Except.ok x => push_slice_loop ts (i + 1) n (v ++ [x])

/-- Source lines 229-241: `push_slice` appends `ts[from_idx..to_idx)`
through a full checkout (`swap`). -/
def push_slice (d : DVec A) (ts : List A) (from_idx to_idx : Nat) :
    Except DvecErr Unit × DVec A :=
  swap d (fun v => push_slice_loop ts from_idx (to_idx - from_idx) v)

/-- Source lines 224-226: `push_all` is `push_slice` over the whole of
`ts`. -/
def push_all (d : DVec A) (ts : List A) : Except DvecErr Unit × DVec A :=
  push_slice d ts 0 ts.length

/-- Source lines 273-281: `get` checks out, copies the vector, gives the
original back and returns the copy. -/
def get (d : DVec A) : Except DvecErr (List A) × DVec A :=
  match check_out d with
  | Except.error e => (Except.error e, d)
  | Except.ok (v, d1) => (Except.ok v, give_back d1 v)

/-- Source lines 285-288: `get_elt` checks the sentinel then performs a
bounds-checked read of `data[idx]`. -/
def get_elt (d : DVec A) (idx : Nat) : Except DvecErr A × DVec A :=
  match d.data with
  | none => (Except.error DvecErr.ReentrantAccess, d)
  | some v => (vecIndex v idx, d)

/-- Source lines 291-294: `set_elt` checks the sentinel then performs a
bounds-checked write of `data[idx] = a`. -/
def set_elt (d : DVec A) (idx : Nat) (a : A) : Except DvecErr Unit × DVec A :=
  match d.data with
  | none => (Except.error DvecErr.ReentrantAccess, d)
  | some v =>
    match vecSet v idx a with
    | Except.error e => (Except.error e, d)
    | Except.ok v1 => (Except.ok (), ⟨some v1⟩)

/-- Source lines 301-307: `grow_set_elt` runs `vec::grow_set` under a
full checkout (`swap`). -/
def grow_set_elt (d : DVec A) (idx : Nat) (initval a : A) :
    Except DvecErr Unit × DVec A :=
  swap d (fun v => Except.ok (vecGrowSet v idx initval a))

/-- Source lines 311-320: `last` checks the sentinel, fails with the
empty-vector message when the length is zero, and otherwise reads
`data[length - 1]`. -/
def last (d : DVec A) : Except DvecErr A × DVec A :=
  match d.data with
  | none => (Except.error DvecErr.ReentrantAccess, d)
  | some v =>
    if v.length = 0 then (Except.error DvecErr.EmptyContainer, d)
    else (vecIndex v (v.length - 1), d)

/-- Source lines 324-333: the reverse-order traversal loop; `f` returns a
continuation flag and traversal stops early on `false`.  `f` may fault. -/
def rev_each_loop (f : A → Except DvecErr Bool) : List A → Except DvecErr Unit
  | [] => Except.ok ()
  | x :: xs =>
    match f x with
    | Except.error e => Except.error e
    | Except.ok true => rev_each_loop f xs
    | Except.ok false => Except.ok ()

/-- Source lines 324-333: `rev_each` runs the reverse traversal under
`swap`, giving the unchanged vector back unless `f` faulted. -/
def rev_each (d : DVec A) (f : A → Except DvecErr Bool) :
    Except DvecErr Unit × DVec A :=
  swap d (fun v =>
    match rev_each_loop f v.reverse with
    | Except.error e => Except.error e
    | Except.ok _ => Except.ok v)

/-- Source lines 337-346: the indexed reverse traversal loop. -/
def rev_eachi_loop (f : Nat → A → Except DvecErr Bool) :
    List (Nat × A) → Except DvecErr Unit
  | [] => Except.ok ()
  | (i, x) :: xs =>
    match f i x with
    | Except.error e => Except.error e
    | Except.ok true => rev_eachi_loop f xs
    | Except.ok false => Except.ok ()

/-- Source lines 337-346: `rev_eachi` runs the indexed reverse traversal
under `swap`, giving the unchanged vector back unless `f` faulted. -/
def rev_eachi (d : DVec A) (f : Nat → A → Except DvecErr Bool) :
    Except DvecErr Unit × DVec A :=
  swap d (fun v =>
    match rev_eachi_loop f v.enum.reverse with
    | Except.error e => Except.error e
    | Except.ok _ => Except.ok v)

/-- A result is a normal return when its `Except` component is `ok`. -/
def isOkB : Except DvecErr B → Bool
  | Except.ok _ => true
  | Except.error _ => false

/-- Invariant I2 shape for one operation result: a normal return leaves
the storage slot present. -/
def presAfter (r : Except DvecErr B × DVec A) : Prop :=
  isOkB r.1 = true → r.2.data.isSome = true

/-- Every sentinel-checking public operation, applied to the container
`p`, reports `ReentrantAccess` and leaves the container state exactly `p`.
Since each operation returns the state unchanged, a container satisfying
this is stuck this way under any sequence of these operations.  The two
public operations that perform no sentinel test (`reserve` and `unwrap`)
are deliberately not listed. -/
def stuckAt (p : DVec A) (t initval a : A) (i fi ti : Nat)
    (w ts : List A) (f : List A → Except DvecErr (List A))
    (g : List A → Except DvecErr B) (gm : List A → Except DvecErr (List A × B))
    (fe : A → Except DvecErr Bool) (fei : Nat → A → Except DvecErr Bool) : Prop :=
  len p = (Except.error DvecErr.ReentrantAccess, p) ∧
  push p t = (Except.error DvecErr.ReentrantAccess, p) ∧
  pop p = (Except.error DvecErr.ReentrantAccess, p) ∧
  shift p = (Except.error DvecErr.ReentrantAccess, p) ∧
  unshift p t = (Except.error DvecErr.ReentrantAccess, p) ∧
  set p w = (Except.error DvecErr.ReentrantAccess, p) ∧
  reverse p = (Except.error DvecErr.ReentrantAccess, p) ∧
  push_all p ts = (Except.error DvecErr.ReentrantAccess, p) ∧
  push_slice p ts fi ti = (Except.error DvecErr.ReentrantAccess, p) ∧
  get p = (Except.error DvecErr.ReentrantAccess, p) ∧
  get_elt p i = (Except.error DvecErr.ReentrantAccess, p) ∧
  set_elt p i a = (Except.error DvecErr.ReentrantAccess, p) ∧
  grow_set_elt p i initval a = (Except.error DvecErr.ReentrantAccess, p) ∧
  last p = (Except.error DvecErr.ReentrantAccess, p) ∧
  borrow p g = (Except.error DvecErr.ReentrantAccess, p) ∧
  borrow_mut p gm = (Except.error DvecErr.ReentrantAccess, p) ∧
  rev_each p fe = (Except.error DvecErr.ReentrantAccess, p) ∧
  rev_eachi p fei = (Except.error DvecErr.ReentrantAccess, p) ∧
  swap p f = (Except.error DvecErr.ReentrantAccess, p) ∧
  check_out p = Except.error DvecErr.ReentrantAccess

/-- A concrete transformation callback that always faults. -/
def failCb : List Nat → Except DvecErr (List Nat) :=
  fun _ => Except.error DvecErr.EmptyContainer

/-- A concrete transformation callback returning its input unchanged. -/
def idCb : List Nat → Except DvecErr (List Nat) := Except.ok

/-- A concrete read-only borrow callback returning the length. -/
def lenCb : List Nat → Except DvecErr Nat := fun v => Except.ok v.length

/-- A concrete mutable borrow callback keeping the vector unchanged. -/
def keepCb : List Nat → Except DvecErr (List Nat × Nat) :=
  fun v => Except.ok (v, 0)

/-- A concrete traversal callback that always continues. -/
def contCb : Nat → Except DvecErr Bool := fun _ => Except.ok true

/-- A concrete indexed traversal callback that always continues. -/
def contiCb : Nat → Nat → Except DvecErr Bool := fun _ _ => Except.ok true

/-- Any container whose storage slot holds the null sentinel is stuck:
every sentinel-checking operation fails with `ReentrantAccess` and leaves
the state unchanged. -/
theorem stuck_of_none {p : DVec A} (t initval a : A) (i fi ti : Nat)
    (w ts : List A) (f : List A → Except DvecErr (List A))
    (g : List A → Except DvecErr B) (gm : List A → Except DvecErr (List A × B))
    (fe : A → Except DvecErr Bool) (fei : Nat → A → Except DvecErr Bool)
    (h : p.data = none) :
    stuckAt p t initval a i fi ti w ts f g gm fe fei := by
  obtain ⟨pd⟩ := p
  cases h
  simp [stuckAt, len, push, pop, shift, unshift, set, reverse, push_all,
    push_slice, get, get_elt, set_elt, grow_set_elt, last, borrow, borrow_mut,
    rev_each, rev_eachi, swap, check_out]

/-- C1: for every container in the checked-out (sentinel) state, each
operation that requires access to the stored sequence (`len`, `push`,
`pop`, `get_elt`, another `check_out`) deterministically raises
`ReentrantAccess` and leaves the storage untouched.  The final conjunct
shows that this is exactly the situation inside a `swap`/`borrow`/
`check_out` callback on the same container: checking out a present
container hands the callback the extracted vector together with the
container in the sentinel state (`data = none`). -/
theorem checked_out_ops_reentrant (A : Type) (d dp : DVec A) (vp : List A)
    (t : A) (i : Nat) (h : d.data = none) (hp : dp.data = some vp) :
    len d = (Except.error DvecErr.ReentrantAccess, d) ∧
    push d t = (Except.error DvecErr.ReentrantAccess, d) ∧
    pop d = (Except.error DvecErr.ReentrantAccess, d) ∧
    get_elt d i = (Except.error DvecErr.ReentrantAccess, d) ∧
    check_out d = Except.error DvecErr.ReentrantAccess ∧
    check_out dp = Except.ok (vp, ⟨none⟩) ∧
    (⟨none⟩ : DVec A).data = none := by
  obtain ⟨dd⟩ := d
  cases h
  simp [len, push, pop, get_elt, check_out, hp]

/-- Witness for C1 at a concrete checked-out container. -/
theorem checked_out_ops_reentrant_witness :
    ((⟨none⟩ : DVec Nat).data = none ∧ (from_vec [3]).data = some [3]) ∧
    (len (⟨none⟩ : DVec Nat) = (Except.error DvecErr.ReentrantAccess, ⟨none⟩) ∧
     push (⟨none⟩ : DVec Nat) 0 = (Except.error DvecErr.ReentrantAccess, ⟨none⟩) ∧
     pop (⟨none⟩ : DVec Nat) = (Except.error DvecErr.ReentrantAccess, ⟨none⟩) ∧
     get_elt (⟨none⟩ : DVec Nat) 0 = (Except.error DvecErr.ReentrantAccess, ⟨none⟩) ∧
     check_out (⟨none⟩ : DVec Nat) = Except.error DvecErr.ReentrantAccess ∧
     check_out (from_vec [3]) = Except.ok ([3], ⟨none⟩) ∧
     (⟨none⟩ : DVec Nat).data = none) :=
  ⟨⟨rfl, rfl⟩, checked_out_ops_reentrant Nat ⟨none⟩ (from_vec [3]) [3] 0 0 rfl rfl⟩

/-- C7: on a container with present contents `v`, `unshift e` returns
normally leaving contents `e :: v`, and a following `shift` returns `e`
and restores the original contents `v` in their original order. -/
theorem unshift_shift_roundtrip (A : Type) (d : DVec A) (v : List A) (e : A)
    (h : d.data = some v) :
    unshift d e = (Except.ok (), ⟨some (e :: v)⟩) ∧
    shift (unshift d e).2 = (Except.ok e, ⟨some v⟩) := by
  simp [unshift, h, shift, check_out, vecShift, give_back]

/-- Witness for C7 at the container `[1, 2]` with element `0`. -/
theorem unshift_shift_roundtrip_witness :
    (from_vec [1, 2]).data = some [1, 2] ∧
    (unshift (from_vec ([1, 2] : List Nat)) 0 = (Except.ok (), ⟨some [0, 1, 2]⟩) ∧
     shift (unshift (from_vec ([1, 2] : List Nat)) 0).2 = (Except.ok 0, ⟨some [1, 2]⟩)) :=
  ⟨rfl, unshift_shift_roundtrip Nat (from_vec [1, 2]) [1, 2] 0 rfl⟩

/-- C8: constructing a container by adopting a sequence `S` and then
consuming it returns exactly `S` (the `some` wrapper is the model of the
non-null owned vector returned by `unwrap`). -/
theorem unwrap_from_vec (A : Type) (S : List A) : unwrap (from_vec S) = some S :=
  rfl

/-- C6: on a container whose present contents are empty, `pop`, `shift`
and `last` fail with `EmptyContainer`; on a non-empty container, `shift`
removes and returns the first element leaving the rest shifted down,
`pop` removes and returns the last element, and `last` returns a copy of
the final element without faulting and without touching the state. -/
theorem pop_shift_last_empty_nonempty (A : Type) (d : DVec A) (v ys xs : List A)
    (x y : A) (h : d.data = some v) :
    (v = [] → (pop d).1 = Except.error DvecErr.EmptyContainer ∧
      (shift d).1 = Except.error DvecErr.EmptyContainer ∧
      last d = (Except.error DvecErr.EmptyContainer, d)) ∧
    (v = x :: xs → shift d = (Except.ok x, ⟨some xs⟩)) ∧
    (v = ys ++ [y] → pop d = (Except.ok y, ⟨some ys⟩) ∧ last d = (Except.ok y, d)) := by
  refine ⟨?_, ?_, ?_⟩
  · rintro rfl
    simp [pop, shift, last, check_out, h, vecPop, vecShift]
  · rintro rfl
    simp [shift, check_out, h, vecShift, give_back]
  · rintro rfl
    have hlen : (ys ++ [y]).length = ys.length + 1 := by simp
    constructor
    · simp [pop, check_out, h, vecPop, List.getLast?_concat,
        List.dropLast_concat, give_back]
    · simp [last, h, hlen, vecIndex, List.getElem?_concat_length]

/-- Witness for C6 at the container `[1, 2]`. -/
theorem pop_shift_last_empty_nonempty_witness :
    (from_vec [1, 2]).data = some [1, 2] ∧
    ((([1, 2] : List Nat) = [] →
       (pop (from_vec ([1, 2] : List Nat))).1 = Except.error DvecErr.EmptyContainer ∧
       (shift (from_vec ([1, 2] : List Nat))).1 = Except.error DvecErr.EmptyContainer ∧
       last (from_vec ([1, 2] : List Nat)) =
         (Except.error DvecErr.EmptyContainer, from_vec [1, 2])) ∧
     (([1, 2] : List Nat) = 1 :: [2] →
       shift (from_vec ([1, 2] : List Nat)) = (Except.ok 1, ⟨some [2]⟩)) ∧
     (([1, 2] : List Nat) = [1] ++ [2] →
       pop (from_vec ([1, 2] : List Nat)) = (Except.ok 2, ⟨some [1]⟩) ∧
       last (from_vec ([1, 2] : List Nat)) = (Except.ok 2, from_vec [1, 2]))) :=
  ⟨rfl, pop_shift_last_empty_nonempty Nat (from_vec [1, 2]) [1, 2] [1] [2] 1 2 rfl⟩

/-- C9: on a container with present contents `v`, `get_elt i` returns the
element stored at `i` when `i` is in range and `set_elt i a` overwrites
exactly that element (same length, index `i` becomes `a`, every other
index unchanged); when `i` is at or beyond the length both fail with
`IndexOutOfRange`, leaving the state untouched. -/
theorem get_set_elt_bounds (A : Type) (d : DVec A) (v : List A) (i j : Nat)
    (a w : A) (h : d.data = some v) :
    (v[i]? = some w → get_elt d i = (Except.ok w, d)) ∧
    (i < v.length →
      set_elt d i a = (Except.ok (), ⟨some (v.set i a)⟩) ∧
      (v.set i a).length = v.length ∧
      (v.set i a)[i]? = some a ∧
      (j ≠ i → (v.set i a)[j]? = v[j]?)) ∧
    (v.length ≤ i →
      get_elt d i = (Except.error DvecErr.IndexOutOfRange, d) ∧
      set_elt d i a = (Except.error DvecErr.IndexOutOfRange, d)) := by
  refine ⟨fun hw => ?_, fun hi => ⟨?_, ?_, ?_, fun hj => ?_⟩, fun hi => ⟨?_, ?_⟩⟩
  · simp [get_elt, h, vecIndex, hw]
  · simp [set_elt, h, vecSet, hi]
  · exact List.length_set ..
  · exact List.getElem?_set_self hi
  · exact List.getElem?_set_ne (Ne.symm hj)
  · simp [get_elt, h, vecIndex, List.getElem?_eq_none hi]
  · simp [set_elt, h, vecSet, Nat.not_lt.mpr hi]

/-- Witness for C9 at the container `[10, 20]`, index 1. -/
theorem get_set_elt_bounds_witness :
    (from_vec [10, 20]).data = some [10, 20] ∧
    ((([10, 20] : List Nat)[1]? = some 20 →
       get_elt (from_vec [10, 20]) 1 = (Except.ok 20, from_vec [10, 20])) ∧
     (1 < ([10, 20] : List Nat).length →
       set_elt (from_vec [10, 20]) 1 7 =
         (Except.ok (), ⟨some (([10, 20] : List Nat).set 1 7)⟩) ∧
       (([10, 20] : List Nat).set 1 7).length = ([10, 20] : List Nat).length ∧
       (([10, 20] : List Nat).set 1 7)[1]? = some 7 ∧
       ((0 : Nat) ≠ 1 → (([10, 20] : List Nat).set 1 7)[0]? = ([10, 20] : List Nat)[0]?)) ∧
     (([10, 20] : List Nat).length ≤ 1 →
       get_elt (from_vec [10, 20]) 1 = (Except.error DvecErr.IndexOutOfRange, from_vec [10, 20]) ∧
       set_elt (from_vec [10, 20]) 1 7 =
         (Except.error DvecErr.IndexOutOfRange, from_vec [10, 20]))) :=
  ⟨rfl, get_set_elt_bounds Nat (from_vec [10, 20]) [10, 20] 1 0 7 20 rfl⟩

/-- C5: on a container with present contents `v`, `grow_set_elt i initval a`
with `v.length ≤ i` returns normally with contents of length `i + 1` in
which every index below the old length is unchanged, every index in
`[v.length, i)` holds a copy of `initval`, and index `i` holds `a`; with
`i < v.length` it behaves exactly as `set_elt i a`. -/
theorem grow_set_elt_spec (A : Type) (d : DVec A) (v : List A) (i j : Nat)
    (initval a : A) (h : d.data = some v) :
    (v.length ≤ i →
      grow_set_elt d i initval a = (Except.ok (), ⟨some (vecGrowSet v i initval a)⟩) ∧
      (vecGrowSet v i initval a).length = i + 1 ∧
      (j < v.length → (vecGrowSet v i initval a)[j]? = v[j]?) ∧
      (v.length ≤ j → j < i → (vecGrowSet v i initval a)[j]? = some initval) ∧
      (vecGrowSet v i initval a)[i]? = some a) ∧
    (i < v.length → grow_set_elt d i initval a = set_elt d i a) := by
  constructor
  · intro hi
    have hif : vecGrowSet v i initval a
        = (v ++ List.replicate (i + 1 - v.length) initval).set i a := by
      simp [vecGrowSet, if_pos hi]
    have hlen : (v ++ List.replicate (i + 1 - v.length) initval).length = i + 1 := by
      simp
      omega
    refine ⟨?_, ?_, ?_, ?_, ?_⟩
    · simp [grow_set_elt, swap, check_out, h, give_back]
    · rw [hif, List.length_set, hlen]
    · intro hj
      rw [hif, List.getElem?_set_ne (by omega), List.getElem?_append_left hj]
    · intro hj1 hj2
      rw [hif, List.getElem?_set_ne (by omega), List.getElem?_append_right hj1,
        List.getElem?_replicate, if_pos (by omega)]
    · rw [hif, List.getElem?_set_self (by rw [hlen]; omega)]
  · intro hi
    have hif : vecGrowSet v i initval a = v.set i a := by
      simp [vecGrowSet, if_neg (by omega : ¬ v.length ≤ i)]
    simp [grow_set_elt, swap, check_out, h, give_back, set_elt, vecSet, hi, hif]

/-- Witness for C5 at the container `[9]`, growing to index 3. -/
theorem grow_set_elt_spec_witness :
    (from_vec [9]).data = some [9] ∧
    ((([9] : List Nat).length ≤ 3 →
       grow_set_elt (from_vec [9]) 3 0 4 = (Except.ok (), ⟨some (vecGrowSet [9] 3 0 4)⟩) ∧
       (vecGrowSet ([9] : List Nat) 3 0 4).length = 3 + 1 ∧
       (2 < ([9] : List Nat).length →
         (vecGrowSet ([9] : List Nat) 3 0 4)[2]? = ([9] : List Nat)[2]?) ∧
       (([9] : List Nat).length ≤ 2 → 2 < 3 →
         (vecGrowSet ([9] : List Nat) 3 0 4)[2]? = some 0) ∧
       (vecGrowSet ([9] : List Nat) 3 0 4)[3]? = some 4) ∧
     (3 < ([9] : List Nat).length →
       grow_set_elt (from_vec [9]) 3 0 4 = set_elt (from_vec [9]) 3 4)) :=
  ⟨rfl, grow_set_elt_spec Nat (from_vec [9]) [9] 3 2 0 4 rfl⟩

/-- C2 (invariant I2): starting from a container whose contents are
present, every public operation other than checkout itself that returns
normally leaves the contents in the present (non-sentinel) state. -/
theorem I2_present_after (A B : Type) (d : DVec A) (v w ts : List A)
    (t initval a : A) (i fi ti n : Nat)
    (f : List A → Except DvecErr (List A))
    (g : List A → Except DvecErr B) (gm : List A → Except DvecErr (List A × B))
    (fe : A → Except DvecErr Bool) (fei : Nat → A → Except DvecErr Bool)
    (h : d.data = some v) :
    presAfter (push d t) ∧ presAfter (pop d) ∧ presAfter (shift d) ∧
    presAfter (unshift d t) ∧ presAfter (set d w) ∧ presAfter (reverse d) ∧
    presAfter (push_all d ts) ∧ presAfter (push_slice d ts fi ti) ∧
    presAfter (get d) ∧ presAfter (get_elt d i) ∧ presAfter (set_elt d i a) ∧
    presAfter (grow_set_elt d i initval a) ∧ presAfter (last d) ∧
    presAfter (borrow d g) ∧ presAfter (borrow_mut d gm) ∧
    presAfter (rev_each d fe) ∧ presAfter (rev_eachi d fei) ∧
    presAfter (reserve d n) ∧ presAfter (len d) ∧ presAfter (swap d f) := by
  have hsw : ∀ f1 : List A → Except DvecErr (List A), presAfter (swap d f1) := by
    intro f1
    simp only [presAfter, swap, check_out, h]
    cases f1 v <;> simp [isOkB, give_back]
  refine ⟨?_, ?_, ?_, ?_, ?_, ?_, ?_, ?_, ?_, ?_, ?_, ?_, ?_, ?_, ?_, ?_, ?_,
    ?_, ?_, ?_⟩
  · simp [presAfter, push, h]
  · simp only [presAfter, pop, check_out, h]
    cases vecPop v <;> simp [isOkB, give_back]
  · simp only [presAfter, shift, check_out, h]
    cases vecShift v <;> simp [isOkB, give_back]
  · simp [presAfter, unshift, h]
  · simp [presAfter, set, h]
  · simp [presAfter, reverse, check_out, h, give_back]
  · exact hsw _
  · exact hsw _
  · simp [presAfter, get, check_out, h, give_back]
  · simp only [presAfter, get_elt, h]
    cases vecIndex v i <;> simp [isOkB]
  · simp only [presAfter, set_elt, h]
    cases vecSet v i a <;> simp [isOkB]
  · exact hsw _
  · simp only [presAfter, last, h]
    by_cases hv : v.length = 0
    · simp [hv, isOkB]
    · simp only [if_neg hv]
      cases vecIndex v (v.length - 1) <;> simp [isOkB, h]
  · simp only [presAfter, borrow, check_out, h]
    cases g v <;> simp [isOkB, give_back]
  · simp only [presAfter, borrow_mut, check_out, h]
    rcases gm v with e | ⟨v1, r⟩ <;> simp [isOkB, give_back]
  · exact hsw _
  · exact hsw _
  · simp [presAfter, reserve, h]
  · simp [presAfter, len, h]
  · exact hsw _

/-- Witness for C2 at the container `[1]` with concrete arguments. -/
theorem I2_present_after_witness :
    (from_vec [1]).data = some [1] ∧
    (presAfter (push (from_vec ([1] : List Nat)) 5) ∧
     presAfter (pop (from_vec ([1] : List Nat))) ∧
     presAfter (shift (from_vec ([1] : List Nat))) ∧
     presAfter (unshift (from_vec ([1] : List Nat)) 5) ∧
     presAfter (set (from_vec ([1] : List Nat)) [2]) ∧
     presAfter (reverse (from_vec ([1] : List Nat))) ∧
     presAfter (push_all (from_vec ([1] : List Nat)) [3]) ∧
     presAfter (push_slice (from_vec ([1] : List Nat)) [3] 0 1) ∧
     presAfter (get (from_vec ([1] : List Nat))) ∧
     presAfter (get_elt (from_vec ([1] : List Nat)) 0) ∧
     presAfter (set_elt (from_vec ([1] : List Nat)) 0 6) ∧
     presAfter (grow_set_elt (from_vec ([1] : List Nat)) 0 7 6) ∧
     presAfter (last (from_vec ([1] : List Nat))) ∧
     presAfter (borrow (from_vec ([1] : List Nat)) lenCb) ∧
     presAfter (borrow_mut (from_vec ([1] : List Nat)) keepCb) ∧
     presAfter (rev_each (from_vec ([1] : List Nat)) contCb) ∧
     presAfter (rev_eachi (from_vec ([1] : List Nat)) contiCb) ∧
     presAfter (reserve (from_vec ([1] : List Nat)) 4) ∧
     presAfter (len (from_vec ([1] : List Nat))) ∧
     presAfter (swap (from_vec ([1] : List Nat)) idCb)) :=
  ⟨rfl, I2_present_after Nat Nat (from_vec [1]) [1] [2] [3] 5 7 6 0 0 1 4
    idCb lenCb keepCb contCb contiCb rfl⟩

/-- C3 counterexample: after a `swap` whose callback faults before
`give_back`, the container is indeed left in the sentinel state, but not
every subsequent operation reports `ReentrantAccess`: `reserve` returns
normally (it performs no sentinel test, source lines 122-124), and
`unwrap` returns the raw null storage without failing (it destructures
the struct with no check, source lines 78-81). -/
theorem faulted_swap_not_all_ops_report :
    (swap (from_vec [(0 : Nat)]) failCb).2.data = none ∧
    reserve (swap (from_vec [(0 : Nat)]) failCb).2 1 = (Except.ok (), ⟨none⟩) ∧
    unwrap (swap (from_vec [(0 : Nat)]) failCb).2 = none :=
  ⟨rfl, rfl, rfl⟩

/-- C3 (amended): if the callback handed to `swap`/`check_out` faults
before `give_back`, the container is left in the sentinel state with the
callback error propagated, and it is poisoned: every sentinel-checking
public operation fails with `ReentrantAccess` and leaves the state
unchanged (hence the poisoning persists under any sequence of such
operations); the two unchecked operations, `reserve` and `unwrap`, return
normally without repairing the state (`unwrap` hands back the raw null
storage). -/
theorem faulted_swap_poisons (A B : Type) (d : DVec A) (v w ts : List A)
    (e : DvecErr) (f0 f : List A → Except DvecErr (List A))
    (t initval a : A) (i fi ti n : Nat)
    (g : List A → Except DvecErr B) (gm : List A → Except DvecErr (List A × B))
    (fe : A → Except DvecErr Bool) (fei : Nat → A → Except DvecErr Bool)
    (h : d.data = some v) (hf : f0 v = Except.error e) :
    swap d f0 = (Except.error e, ⟨none⟩) ∧
    stuckAt (swap d f0).2 t initval a i fi ti w ts f g gm fe fei ∧
    reserve (swap d f0).2 n = (Except.ok (), (swap d f0).2) ∧
    unwrap (swap d f0).2 = none := by
  have hsw : swap d f0 = (Except.error e, ⟨none⟩) := by
    simp [swap, check_out, h, hf]
  refine ⟨hsw, ?_, rfl, ?_⟩
  · exact stuck_of_none t initval a i fi ti w ts f g gm fe fei (by rw [hsw])
  · simp [unwrap, hsw]

/-- Witness for the amended C3 at the container `[1]` with a callback
that faults with `EmptyContainer`. -/
theorem faulted_swap_poisons_witness :
    ((from_vec [1]).data = some [1] ∧ failCb [1] = Except.error DvecErr.EmptyContainer) ∧
    (swap (from_vec ([1] : List Nat)) failCb = (Except.error DvecErr.EmptyContainer, ⟨none⟩) ∧
     stuckAt (swap (from_vec ([1] : List Nat)) failCb).2 0 0 0 0 0 0 [] []
       idCb lenCb keepCb contCb contiCb ∧
     reserve (swap (from_vec ([1] : List Nat)) failCb).2 2 =
       (Except.ok (), (swap (from_vec ([1] : List Nat)) failCb).2) ∧
     unwrap (swap (from_vec ([1] : List Nat)) failCb).2 = none) :=
  ⟨⟨rfl, rfl⟩, faulted_swap_poisons Nat Nat (from_vec [1]) [1] [] []
    DvecErr.EmptyContainer failCb idCb 0 0 0 0 0 0 2 lenCb keepCb contCb contiCb
    rfl rfl⟩

/-- C4 counterexample: `reserve` invoked while the container is checked
out does not fail with `ReentrantAccess`; it returns normally, because
source lines 122-124 call `vec::reserve` directly on the storage slot
without any sentinel test or checkout. -/
theorem reserve_skips_sentinel_check :
    reserve (⟨none⟩ : DVec Nat) 5 = (Except.ok (), (⟨none⟩ : DVec Nat)) :=
  rfl

/-- C4 (amended): every array operation of the spec except `reserve` and
the consuming `unwrap` goes through the Storage Cell gateway (sentinel
check or full checkout), so on a checked-out container each of them fails
with `ReentrantAccess`; `reserve` bypasses the gateway and returns
normally, and `unwrap` extracts the raw storage without a check. -/
theorem gateway_ops_reentrant (A B : Type) (p : DVec A)
    (t initval a : A) (i fi ti n : Nat) (w ts : List A)
    (f : List A → Except DvecErr (List A))
    (g : List A → Except DvecErr B) (gm : List A → Except DvecErr (List A × B))
    (fe : A → Except DvecErr Bool) (fei : Nat → A → Except DvecErr Bool)
    (h : p.data = none) :
    stuckAt p t initval a i fi ti w ts f g gm fe fei ∧
    reserve p n = (Except.ok (), p) ∧
    unwrap p = none :=
  ⟨stuck_of_none t initval a i fi ti w ts f g gm fe fei h, rfl, h⟩

/-- Witness for the amended C4 at a concrete checked-out container. -/
theorem gateway_ops_reentrant_witness :
    (⟨none⟩ : DVec Nat).data = none ∧
    (stuckAt (⟨none⟩ : DVec Nat) 0 0 0 0 0 0 [] [] idCb lenCb keepCb contCb contiCb ∧
     reserve (⟨none⟩ : DVec Nat) 3 = (Except.ok (), (⟨none⟩ : DVec Nat)) ∧
     unwrap (⟨none⟩ : DVec Nat) = none) :=
  ⟨rfl, gateway_ops_reentrant Nat Nat ⟨none⟩ 0 0 0 0 0 0 3 [] []
    idCb lenCb keepCb contCb contiCb rfl⟩

/-- C10 counterexample: `pop` on an empty container does leave the
sentinel installed, but not every subsequent operation raises
`ReentrantAccess`: `reserve` returns normally and `unwrap` returns the
raw null storage without failing. -/
theorem empty_pop_not_all_ops_report :
    pop (from_vec ([] : List Nat)) = (Except.error DvecErr.EmptyContainer, ⟨none⟩) ∧
    reserve (pop (from_vec ([] : List Nat))).2 3 = (Except.ok (), ⟨none⟩) ∧
    unwrap (pop (from_vec ([] : List Nat))).2 = none :=
  ⟨rfl, rfl, rfl⟩

/-- C10 (amended): on a container whose present contents are empty, a
failing `pop` or `shift` is not atomic: the `EmptyContainer` failure
fires after `check_out` has already installed the sentinel and before
`give_back`, so the container is left in the checked-out state, and every
subsequent sentinel-checking operation (all public operations except the
unchecked `reserve` and `unwrap`) raises `ReentrantAccess` rather than
`EmptyContainer`. -/
theorem empty_pop_shift_poison (A B : Type) (d : DVec A)
    (t initval a : A) (i fi ti : Nat) (w ts : List A)
    (f : List A → Except DvecErr (List A))
    (g : List A → Except DvecErr B) (gm : List A → Except DvecErr (List A × B))
    (fe : A → Except DvecErr Bool) (fei : Nat → A → Except DvecErr Bool)
    (h : d.data = some ([] : List A)) :
    pop d = (Except.error DvecErr.EmptyContainer, ⟨none⟩) ∧
    shift d = (Except.error DvecErr.EmptyContainer, ⟨none⟩) ∧
    stuckAt ((pop d).2) t initval a i fi ti w ts f g gm fe fei := by
  have hp : pop d = (Except.error DvecErr.EmptyContainer, ⟨none⟩) := by
    simp [pop, check_out, h, vecPop]
  have hs : shift d = (Except.error DvecErr.EmptyContainer, ⟨none⟩) := by
    simp [shift, check_out, h, vecShift]
  exact ⟨hp, hs, stuck_of_none t initval a i fi ti w ts f g gm fe fei (by rw [hp])⟩

/-- Witness for the amended C10 at the empty container. -/
theorem empty_pop_shift_poison_witness :
    (from_vec ([] : List Nat)).data = some [] ∧
    (pop (from_vec ([] : List Nat)) = (Except.error DvecErr.EmptyContainer, ⟨none⟩) ∧
     shift (from_vec ([] : List Nat)) = (Except.error DvecErr.EmptyContainer, ⟨none⟩) ∧
     stuckAt ((pop (from_vec ([] : List Nat))).2) 0 0 0 0 0 0 [] []
       idCb lenCb keepCb contCb contiCb) :=
  ⟨rfl, empty_pop_shift_poison Nat Nat (from_vec []) 0 0 0 0 0 0 [] []
    idCb lenCb keepCb contCb contiCb rfl⟩

end Dvec
